import Mathlib

/-!
Verification of the i2c event-capture pipeline.

This file is a shallow embedding of the core of the repository:
the bounded event queue of `src/hooks.c`, the staging buffer of
`src/buffer.c`, the durable log writer of `src/logger.c`, and the
capture controller of `src/capture.c`.  Machine integers (`size_t`,
`DWORD`) are modelled as `Nat` (all quantities involved stay far below
the 64-bit range; where the source performs a guarded subtraction on
`SIZE_MAX` the constant is carried explicitly).  C out-parameters and
global mutable state become explicit state records threaded through the
functions; a `bool` return plus a state mutation becomes a pair.
External effects (the Win32 `WriteFile`/`fwrite` syscalls, the wall
clock) are abstracted as oracle parameters; everything the C code does
with their results is modelled faithfully.
-/

namespace I2c

/-! ## Constants (hooks.h, buffer.h, logger.h, capture.h) -/

def MAX_EVENT_QUEUE : Nat := 1024

def BUFFER_SIZE : Nat := 4096

def BUFFER_MAX_EVENT_SIZE : Nat := 1024

def LOG_MAX_PATH : Nat := 260

def LOG_TIMESTAMP_SIZE : Nat := 32

def LOG_BUFFER_SIZE : Nat := 4096

def LOG_MAX_FILE_SIZE : Nat := 100 * 1024 * 1024

def LOG_MAX_WRITE_RETRIES : Nat := 3

def CAPTURE_MAX_ENTRY_SIZE : Nat := 2048

def CAPTURE_BUFFER_SIZE : Nat := 1024 * 1024

/-- Value of `SIZE_MAX` on the 64-bit target, used by the overflow guard
in `add_to_buffer`. -/
def SIZE_MAX : Nat := 2 ^ 64 - 1

/-! Error codes (hooks.h / buffer.h / logger.h / capture.h). -/

def BUFFER_ERROR_NONE : Nat := 0

def BUFFER_ERROR_INIT : Nat := 1

def BUFFER_ERROR_FULL : Nat := 2

def BUFFER_ERROR_INVALID : Nat := 4

def BUFFER_ERROR_FLUSH : Nat := 5

def LOG_ERROR_NONE : Nat := 0

def LOG_ERROR_INIT : Nat := 1

def LOG_ERROR_WRITE : Nat := 3

def LOG_ERROR_INVALID : Nat := 4

def LOG_ERROR_SIZE : Nat := 6

def CAPTURE_ERROR_NONE : Nat := 0

def CAPTURE_ERROR_FILE : Nat := 2

/-! ## Event data model (hooks.h)

The C `Event` holds a `type` tag, a timestamp and a union of the three
payloads.  The union is modelled as a product: the code only ever reads
the member that matches the tag, so carrying all three payloads is an
equivalent representation. -/

inductive EventType
  | keyPress
  | keyRelease
  | mouseClick
  | mouseMove
  | mouseWheel
  | windowChange
  | error
deriving DecidableEq, Inhabited, Repr

structure KeyboardEvent where
  vkCode : Nat
  scanCode : Nat
  extended : Bool
  injected : Bool
  alt : Bool
  shift : Bool
  control : Bool
  win : Bool
deriving DecidableEq, Inhabited, Repr

structure MouseEvent where
  posX : Int
  posY : Int
  buttonFlags : Nat
  injected : Bool
  wheelDelta : Int
  leftButton : Bool
  rightButton : Bool
  middleButton : Bool
deriving DecidableEq, Inhabited, Repr

structure WindowEvent where
  title : String
  process : String
  processId : Nat
  hwnd : Nat
deriving DecidableEq, Inhabited, Repr

structure Event where
  type : EventType
  timestamp : Nat
  keyboard : KeyboardEvent
  mouse : MouseEvent
  window : WindowEvent
deriving DecidableEq, Inhabited, Repr

/-! ## Event queue (hooks.c) -/

structure HookFilters where
  capture_keyboard : Bool
  capture_mouse : Bool
  capture_window_changes : Bool
  ignore_injected : Bool
deriving DecidableEq, Inhabited, Repr

structure HookStats where
  total_events : Nat
  dropped_events : Nat
  window_changes : Nat
  queue_overflows : Nat
deriving DecidableEq, Inhabited, Repr

/-- The slot ring of `hooks.event_queue`: an array of `MAX_EVENT_QUEUE`
slots (modelled as a function on indices) plus head and tail indices. -/
structure EventQueue where
  queue : Nat → Event
  queue_head : Nat
  queue_tail : Nat

/-- The hook-subsystem globals used by the queue code paths:
the `hooks_active` flag, whether `hooks.callback` is non-null, the
filters, the queue ring and the statistics counters. -/
structure HookState where
  hooks_active : Bool
  callback_set : Bool
  filters : HookFilters
  event_queue : EventQueue
  stats : HookStats

/-- `should_process_event` from hooks.c: per-type capture flags plus the
ignore-injected flag; error events always pass. -/
def should_process_event (filters : HookFilters) (event : Event) : Bool :=
  match event.type with
  | EventType.keyPress | EventType.keyRelease =>
    if filters.capture_keyboard = false then false
    else if filters.ignore_injected && event.keyboard.injected then false
    else true
  | EventType.mouseClick | EventType.mouseMove | EventType.mouseWheel =>
    if filters.capture_mouse = false then false
    else if filters.ignore_injected && event.mouse.injected then false
    else true
  | EventType.windowChange =>
    if filters.capture_window_changes = false then false else true
  | EventType.error => true

/-- `queue_event` from hooks.c.  The C null-pointer check on `event`
cannot fire in the embedding (events are passed by value).  Filtered
events are reported as handled (`true`) without touching the queue.
On a full ring (`(tail+1) % N == head`) the event is dropped and the
overflow counters are bumped; otherwise the event is copied into
`queue[tail]` and the tail advances. -/
def queue_event (st : HookState) (event : Event) : Bool × HookState :=
  if st.hooks_active = false then (false, st)
  else if should_process_event st.filters event = false then (true, st)
  else
    let next := (st.event_queue.queue_tail + 1) % MAX_EVENT_QUEUE
    if next ≠ st.event_queue.queue_head then
      (true,
        { st with
          event_queue :=
            { st.event_queue with
              queue := fun i =>
                if i = st.event_queue.queue_tail then event
                else st.event_queue.queue i,
              queue_tail := next },
          stats := { st.stats with total_events := st.stats.total_events + 1 } })
    else
      (false,
        { st with
          stats :=
            { st.stats with
              queue_overflows := st.stats.queue_overflows + 1,
              dropped_events := st.stats.dropped_events + 1 } })

/-- `process_queued_event` from hooks.c.  The C function invokes
`hooks.callback` on the head slot and returns `true` when an event was
processed; the embedding returns the event that was handed to the
callback (`none` when nothing was processed). -/
def process_queued_event (st : HookState) : Option Event × HookState :=
  if st.hooks_active = false ∨ st.callback_set = false then (none, st)
  else if st.event_queue.queue_head ≠ st.event_queue.queue_tail then
    (some (st.event_queue.queue st.event_queue.queue_head),
      { st with
        event_queue :=
          { st.event_queue with
            queue_head := (st.event_queue.queue_head + 1) % MAX_EVENT_QUEUE } })
  else (none, st)

/-- Repeatedly dequeue, collecting the events delivered to the callback,
for at most `fuel` iterations; stops as soon as `process_queued_event`
reports nothing processed, exactly like the C `while` loops. -/
def drain : Nat → HookState → List Event × HookState
  | 0, st => ([], st)
  | fuel + 1, st =>
    match process_queued_event st with
    | (some e, st') =>
      let r := drain fuel st'
      (e :: r.1, r.2)
    | (none, st') => ([], st')

/-- `process_remaining_events` from hooks.c: drain until
`process_queued_event` returns false.  The ring holds at most
`MAX_EVENT_QUEUE - 1` events and only the consumer advances the head,
so `MAX_EVENT_QUEUE` iterations always suffice for the C loop to
terminate; the fuelled drain with that bound is an exact model. -/
def process_remaining_events (st : HookState) : List Event × HookState :=
  drain MAX_EVENT_QUEUE st

/-- `cleanup_hooks` from hooks.c, restricted to the modelled state: the
early return when inactive, the clearing of `hooks_active` (which the
source performs BEFORE draining), the final drain, and the reset of the
callback.  The unhooking of the Win32 hooks and the window-tracking
resets touch no modelled state.  The first component is the list of
events delivered to the callback during the shutdown drain. -/
def cleanup_hooks (st : HookState) : List Event × HookState :=
  if st.hooks_active = false then ([], st)
  else
    let st1 : HookState := { st with hooks_active := false }
    let r := process_remaining_events st1
    (r.1, { r.2 with callback_set := false })

/-- Filter values installed by `reset_hook_filters` (hooks.c): capture
everything, do not ignore injected events. -/
def reset_hook_filters : HookFilters :=
  { capture_keyboard := true
    capture_mouse := true
    capture_window_changes := true
    ignore_injected := false }

/-- Hook state as established by `init_hooks`: active, callback set,
statistics zeroed, `queue_head = queue_tail = 0`. -/
def initial_hook_state (filters : HookFilters) : HookState :=
  { hooks_active := true
    callback_set := true
    filters := filters
    event_queue := { queue := fun _ => default, queue_head := 0, queue_tail := 0 }
    stats := { total_events := 0, dropped_events := 0, window_changes := 0, queue_overflows := 0 } }

/-- Enqueue a list of events in order (each step is one `queue_event`
call from a producer hook). -/
def enqueue_all (st : HookState) (es : List Event) : HookState :=
  es.foldl (fun s e => (queue_event s e).2) st

/-! ## Claim C1: enqueue behaviour on a full and on a non-full ring -/

/-- C1: with hooks active and an event that passes the filter,
`queue_event` on a full ring (`(tail+1) % N = head`) returns `false`,
bumps `dropped_events` by exactly one and leaves the ring (slots, head
and tail) untouched; on a non-full ring it returns `true`, copies the
event into `queue[tail]`, leaves all other slots and the head alone,
advances the tail by one mod `N`, and bumps `total_events` by one. -/
theorem queue_event_spec (st : HookState) (e : Event)
    (hact : st.hooks_active = true)
    (hpass : should_process_event st.filters e = true) :
    ((st.event_queue.queue_tail + 1) % MAX_EVENT_QUEUE = st.event_queue.queue_head →
      (queue_event st e).1 = false ∧
      (queue_event st e).2.stats.dropped_events = st.stats.dropped_events + 1 ∧
      (queue_event st e).2.event_queue = st.event_queue) ∧
    ((st.event_queue.queue_tail + 1) % MAX_EVENT_QUEUE ≠ st.event_queue.queue_head →
      (queue_event st e).1 = true ∧
      (queue_event st e).2.event_queue.queue st.event_queue.queue_tail = e ∧
      (∀ i, i ≠ st.event_queue.queue_tail →
        (queue_event st e).2.event_queue.queue i = st.event_queue.queue i) ∧
      (queue_event st e).2.event_queue.queue_tail =
        (st.event_queue.queue_tail + 1) % MAX_EVENT_QUEUE ∧
      (queue_event st e).2.event_queue.queue_head = st.event_queue.queue_head ∧
      (queue_event st e).2.stats.total_events = st.stats.total_events + 1) := by
  constructor
  · intro hfull
    simp [queue_event, hact, hpass, hfull]
  · intro hfree
    refine ⟨?_, ?_, ?_, ?_, ?_, ?_⟩ <;>
      simp [queue_event, hact, hpass, hfree]
    intro i hi hi2
    exact absurd hi2 hi

/-- Witness for C1: a concrete full ring (head 0, tail 1023) rejects a
key event and counts the drop; a concrete non-full ring (head 0, tail 5)
accepts it at slot 5 and advances the tail to 6. -/
def full_queue_state : HookState :=
  { hooks_active := true
    callback_set := true
    filters := reset_hook_filters
    event_queue := { queue := fun _ => default, queue_head := 0, queue_tail := 1023 }
    stats := { total_events := 1023, dropped_events := 0, window_changes := 0, queue_overflows := 0 } }

def open_queue_state : HookState :=
  { hooks_active := true
    callback_set := true
    filters := reset_hook_filters
    event_queue := { queue := fun _ => default, queue_head := 0, queue_tail := 5 }
    stats := { total_events := 5, dropped_events := 0, window_changes := 0, queue_overflows := 0 } }

/-- A fixed keyboard event: KeyPress, vkCode 0x41, scanCode 0x1E,
alt held, every other flag clear. -/
def sample_key_event : Event :=
  { type := EventType.keyPress
    timestamp := 0
    keyboard :=
      { vkCode := 0x41, scanCode := 0x1E, extended := false, injected := false
        alt := true, shift := false, control := false, win := false }
    mouse := default
    window := default }

theorem queue_event_spec_witness :
    full_queue_state.hooks_active = true ∧
    should_process_event full_queue_state.filters sample_key_event = true ∧
    (queue_event full_queue_state sample_key_event).1 = false ∧
    (queue_event full_queue_state sample_key_event).2.stats.dropped_events =
      full_queue_state.stats.dropped_events + 1 ∧
    (queue_event open_queue_state sample_key_event).1 = true ∧
    (queue_event open_queue_state sample_key_event).2.event_queue.queue 5 = sample_key_event ∧
    (queue_event open_queue_state sample_key_event).2.event_queue.queue_tail = 6 := by
  have hfull := (queue_event_spec full_queue_state sample_key_event rfl (by decide)).1
    (by decide)
  have hfree := (queue_event_spec open_queue_state sample_key_event rfl (by decide)).2
    (by decide)
  refine ⟨rfl, by decide, hfull.1, hfull.2.1, hfree.1, hfree.2.1, ?_⟩
  have := hfree.2.2.2.1
  simpa using this

/-! ## Claim C2: FIFO order of the ring

Strategy: an explicit invariant over the enqueue phase (head pinned at
0, tail equal to the number of enqueued events, slot `j` holding the
`j`-th event), then a drain lemma consuming the slots in index order. -/

/-- List helper: indexing with a default commutes with a left append. -/
theorem getD_append_of_lt {α : Type} (l₁ l₂ : List α) (d : α) :
    ∀ j, j < l₁.length → (l₁ ++ l₂).getD j d = l₁.getD j d := by
  induction l₁ with
  | nil => intro j hj; exact absurd hj (by simp)
  | cons a t ih =>
    intro j hj
    cases j with
    | zero => rfl
    | succ k => exact ih k (by simpa using hj)

/-- List helper: the element just past `l₁` in `l₁ ++ e :: l₂` is `e`. -/
theorem getD_append_self {α : Type} (l₁ l₂ : List α) (e d : α) :
    (l₁ ++ e :: l₂).getD l₁.length d = e := by
  induction l₁ with
  | nil => rfl
  | cons a t ih => simpa using ih

/-- List helper: dropping `i < length` elements exposes element `i`. -/
theorem drop_eq_getD_cons {α : Type} (d : α) :
    ∀ (l : List α) (i : Nat), i < l.length → l.drop i = l.getD i d :: l.drop (i + 1) := by
  intro l
  induction l with
  | nil => intro i hi; exact absurd hi (by simp)
  | cons a t ih =>
    intro i hi
    cases i with
    | zero => rfl
    | succ k => exact ih k (by simpa using hi)

/-- Invariant of the enqueue phase: hooks active and callback set, the
filters fixed, the head still at 0, the tail at the number of events
enqueued so far, and slot `j` holding the `j`-th enqueued event. -/
def QueueInv (F : HookFilters) (done : List Event) (st : HookState) : Prop :=
  st.hooks_active = true ∧ st.callback_set = true ∧ st.filters = F ∧
  st.event_queue.queue_head = 0 ∧ st.event_queue.queue_tail = done.length ∧
  ∀ j, j < done.length → st.event_queue.queue j = done.getD j default

theorem queue_inv_step (F : HookFilters) (done : List Event) (st : HookState) (e : Event)
    (inv : QueueInv F done st) (hroom : done.length < MAX_EVENT_QUEUE - 1)
    (hpass : should_process_event F e = true) :
    QueueInv F (done ++ [e]) (queue_event st e).2 := by
  obtain ⟨hact, hcb, hfil, hhead, htail, hslots⟩ := inv
  have hmod : (done.length + 1) % MAX_EVENT_QUEUE = done.length + 1 :=
    Nat.mod_eq_of_lt (by simp only [MAX_EVENT_QUEUE] at hroom ⊢; omega)
  have hfree : (st.event_queue.queue_tail + 1) % MAX_EVENT_QUEUE ≠
      st.event_queue.queue_head := by
    rw [htail, hhead, hmod]; omega
  have hp : should_process_event st.filters e = true := by rw [hfil]; exact hpass
  have hq : (queue_event st e).2 =
      { st with
        event_queue :=
          { st.event_queue with
            queue := fun i =>
              if i = st.event_queue.queue_tail then e else st.event_queue.queue i,
            queue_tail := (st.event_queue.queue_tail + 1) % MAX_EVENT_QUEUE },
        stats := { st.stats with total_events := st.stats.total_events + 1 } } := by
    simp [queue_event, hact, hp, hfree]
  simp only [QueueInv, hq]
  refine ⟨hact, hcb, hfil, hhead, ?_, ?_⟩
  · simp [htail, hmod]
  · intro j hj
    simp only [List.length_append, List.length_cons, List.length_nil] at hj
    rcases Nat.lt_or_ge j done.length with hlt | hge
    · have hne : j ≠ st.event_queue.queue_tail := by rw [htail]; omega
      simp only [if_neg hne]
      rw [hslots j hlt, getD_append_of_lt done [e] default j hlt]
    · have hj' : j = done.length := by omega
      have heq : j = st.event_queue.queue_tail := by rw [htail, hj']
      simp only [if_pos heq]
      rw [hj', getD_append_self done [] e default]

theorem enqueue_all_inv (F : HookFilters) :
    ∀ (rest done : List Event) (st : HookState),
      QueueInv F done st → done.length + rest.length ≤ MAX_EVENT_QUEUE - 1 →
      (∀ e ∈ rest, should_process_event F e = true) →
      QueueInv F (done ++ rest) (enqueue_all st rest) := by
  intro rest
  induction rest with
  | nil => intro done st inv _ _; simpa [enqueue_all] using inv
  | cons e t ih =>
    intro done st inv hlen hpass
    have hstep := queue_inv_step F done st e inv
      (by simp only [List.length_cons] at hlen; omega)
      (hpass e (List.mem_cons_self e t))
    have := ih (done ++ [e]) (queue_event st e).2 hstep
      (by simp only [List.length_append, List.length_cons, List.length_nil] at hlen ⊢; omega)
      (fun x hx => hpass x (List.mem_cons_of_mem e hx))
    simpa [enqueue_all, List.append_assoc] using this

/-- Drain lemma: from a state whose slots `head ≤ j < tail` hold the
suffix of `es` and whose head is `i`, draining `es.length - i` steps
delivers exactly `es.drop i`. -/
theorem drain_delivers (es : List Event) (hlen : es.length ≤ MAX_EVENT_QUEUE - 1) :
    ∀ (k i : Nat) (st : HookState),
      st.hooks_active = true → st.callback_set = true →
      st.event_queue.queue_head = i → st.event_queue.queue_tail = es.length →
      i + k = es.length →
      (∀ j, j < es.length → st.event_queue.queue j = es.getD j default) →
      (drain k st).1 = es.drop i := by
  intro k
  induction k with
  | zero =>
    intro i st _ _ _ _ hik _
    have : i = es.length := by omega
    simp [drain, this, List.drop_length]
  | succ k ih =>
    intro i st hact hcb hhead htail hik hslots
    have hi : i < es.length := by omega
    have hne : st.event_queue.queue_head ≠ st.event_queue.queue_tail := by
      rw [hhead, htail]; omega
    have hstep : process_queued_event st =
        (some (st.event_queue.queue st.event_queue.queue_head),
          { st with
            event_queue :=
              { st.event_queue with
                queue_head := (st.event_queue.queue_head + 1) % MAX_EVENT_QUEUE } }) := by
      simp [process_queued_event, hact, hcb, hne]
    have hmod : (i + 1) % MAX_EVENT_QUEUE = i + 1 :=
      Nat.mod_eq_of_lt (by simp only [MAX_EVENT_QUEUE] at hlen ⊢; omega)
    have hrec := ih (i + 1)
      { st with
        event_queue :=
          { st.event_queue with
            queue_head := (st.event_queue.queue_head + 1) % MAX_EVENT_QUEUE } }
      hact hcb (by simp [hhead, hmod]) htail (by omega) hslots
    rw [drop_eq_getD_cons default es i hi]
    simp only [drain, hstep]
    rw [hrec, hhead, hslots i hi]

/-- C2: enqueueing `N ≤ 1023` events that all pass the filter into the
freshly initialized (empty) queue and then draining `N` times delivers
exactly the enqueued events, in enqueue order, to the callback. -/
theorem queue_fifo_order (F : HookFilters) (es : List Event)
    (hlen : es.length ≤ MAX_EVENT_QUEUE - 1)
    (hpass : ∀ e ∈ es, should_process_event F e = true) :
    (drain es.length (enqueue_all (initial_hook_state F) es)).1 = es := by
  have hinv0 : QueueInv F [] (initial_hook_state F) := by
    refine ⟨rfl, rfl, rfl, rfl, rfl, ?_⟩
    intro j hj
    exact absurd hj (by simp)
  have hinv := enqueue_all_inv F es [] (initial_hook_state F) hinv0 (by simpa using hlen) hpass
  obtain ⟨hact, hcb, _, hhead, htail, hslots⟩ := hinv
  have := drain_delivers es hlen es.length 0 (enqueue_all (initial_hook_state F) es)
    hact hcb hhead (by simpa using htail) (by omega) (by simpa using hslots)
  simpa using this

/-- A second fixed keyboard event, distinct from `sample_key_event`. -/
def sample_key_event2 : Event :=
  { sample_key_event with
    keyboard := { sample_key_event.keyboard with vkCode := 0x42, scanCode := 0x30 } }

theorem queue_fifo_order_witness :
    ([sample_key_event, sample_key_event2] : List Event).length ≤ MAX_EVENT_QUEUE - 1 ∧
    (∀ e ∈ [sample_key_event, sample_key_event2],
      should_process_event reset_hook_filters e = true) ∧
    (drain 2 (enqueue_all (initial_hook_state reset_hook_filters)
      [sample_key_event, sample_key_event2])).1 =
      [sample_key_event, sample_key_event2] :=
  ⟨by decide, by decide,
    queue_fifo_order reset_hook_filters [sample_key_event, sample_key_event2]
      (by decide) (by decide)⟩

/-! ## Claim C3: the shutdown drain of `cleanup_hooks`

`cleanup_hooks` clears `hooks_active` BEFORE calling
`process_remaining_events`, and `process_queued_event` refuses to run
when `hooks_active` is false, so the final drain can never deliver a
single event: everything still queued at shutdown is discarded.  This
contradicts both the spec and the source's own comments
("Process any events still in queue"). -/

theorem drain_inactive (st : HookState) (h : st.hooks_active = false) :
    ∀ k, (drain k st).1 = [] := by
  intro k
  cases k with
  | zero => rfl
  | succ k => simp [drain, process_queued_event, h]

/-- C3 (refuted): the list of events delivered to the callback during
the shutdown drain performed by `cleanup_hooks` is empty for EVERY hook
state — in particular for a state with `K > 0` queued events, so the
claimed no-loss drain does not happen. -/
theorem cleanup_hooks_delivers_nothing (st : HookState) :
    (cleanup_hooks st).1 = [] := by
  by_cases h : st.hooks_active = false
  · simp [cleanup_hooks, h]
  · simp only [cleanup_hooks, if_neg h, process_remaining_events]
    exact drain_inactive _ rfl MAX_EVENT_QUEUE

/-! ## Staging buffer (buffer.c)

`write_to_log` is the buffer's sink; its success or failure for the
single flush a buffer operation can trigger is abstracted as the
Boolean parameter `writeOk`, and everything buffer.c does with that
result is modelled exactly. -/

structure BufferStats where
  total_flushes : Nat
  failed_flushes : Nat
  total_writes : Nat
  failed_writes : Nat
deriving DecidableEq, Inhabited, Repr

/-- The global `Buffer` of buffer.c.  `data_allocated` models
`buffer.data != NULL`; `data` gives the byte at each index of the
backing storage. -/
structure Buffer where
  data_allocated : Bool
  data : Nat → Nat
  size : Nat
  capacity : Nat
  initialized : Bool
  last_error : Nat
  stats : BufferStats

/-- `validate_buffer_state` from buffer.c: valid iff initialized with a
live allocation; on failure records `BUFFER_ERROR_INIT`. -/
def validate_buffer_state (b : Buffer) : Bool × Buffer :=
  if b.initialized && b.data_allocated then (true, b)
  else (false, { b with last_error := BUFFER_ERROR_INIT })

/-- `force_flush_buffer` from buffer.c.  `writeOk` is the result of
`write_to_log(buffer.data, buffer.size)`.  An invalid state or an empty
buffer returns `false` at once; otherwise the flush counter is bumped,
and on a successful write the size is zeroed and the storage memset to
0, while on a failed write the failed-flush counter is bumped and the
contents are left in place. -/
def force_flush_buffer (writeOk : Bool) (b : Buffer) : Bool × Buffer :=
  let v := validate_buffer_state b
  if v.1 = false ∨ b.size = 0 then (false, v.2)
  else
    let b1 := { v.2 with stats := { v.2.stats with total_flushes := v.2.stats.total_flushes + 1 } }
    if writeOk then
      (true, { b1 with size := 0, data := fun _ => 0 })
    else
      (false,
        { b1 with
          last_error := BUFFER_ERROR_FLUSH,
          stats := { b1.stats with failed_flushes := b1.stats.failed_flushes + 1 } })

/-- The shared tail of `add_to_buffer` (the "double check after
potential flush" block of buffer.c): append when the data now fits,
otherwise fail with `BUFFER_ERROR_FULL`. -/
def add_to_buffer_tail (b : Buffer) (ed : Nat → Nat) (data_size : Nat) : Bool × Buffer :=
  if b.size + data_size ≤ b.capacity then
    (true,
      { b with
        data := fun i =>
          if b.size ≤ i ∧ i < b.size + data_size then ed (i - b.size) else b.data i,
        size := b.size + data_size,
        stats := { b.stats with total_writes := b.stats.total_writes + 1 } })
  else
    (false,
      { b with
        last_error := BUFFER_ERROR_FULL,
        stats := { b.stats with failed_writes := b.stats.failed_writes + 1 } })

/-- `add_to_buffer` from buffer.c.  Rejects a null pointer, a zero
length and a length above `BUFFER_MAX_EVENT_SIZE`, then the `SIZE_MAX`
overflow guard, then validates the state; if the data does not fit, a
flush (whose sink outcome is `writeOk`) is attempted first, and a
failed flush fails the call with the failed-write counter bumped. -/
def add_to_buffer (writeOk : Bool) (b : Buffer) (event_data : Option (Nat → Nat))
    (data_size : Nat) : Bool × Buffer :=
  match event_data with
  | none => (false, { b with last_error := BUFFER_ERROR_INVALID })
  | some ed =>
    if data_size = 0 ∨ data_size > BUFFER_MAX_EVENT_SIZE then
      (false, { b with last_error := BUFFER_ERROR_INVALID })
    else if data_size > SIZE_MAX - b.size then
      (false, { b with last_error := BUFFER_ERROR_INVALID })
    else
      let v := validate_buffer_state b
      if v.1 = false then (false, v.2)
      else if b.size + data_size > b.capacity then
        let f := force_flush_buffer writeOk b
        if f.1 = false then
          (false,
            { f.2 with
              last_error := BUFFER_ERROR_FULL,
              stats := { f.2.stats with failed_writes := f.2.stats.failed_writes + 1 } })
        else add_to_buffer_tail f.2 ed data_size
      else add_to_buffer_tail b ed data_size

/-! ## Claim C4: flush failure preserves the buffer, success empties it -/

/-- C4: for an initialized buffer with `size > 0`, a flush whose
underlying `write_to_log` fails returns `false`, leaves size and
contents untouched and bumps the failed-flush counter by exactly one;
a flush whose write succeeds returns `true` and zeroes the size. -/
theorem force_flush_buffer_spec (b : Buffer)
    (hinit : b.initialized = true) (halloc : b.data_allocated = true)
    (hsz : 0 < b.size) :
    (force_flush_buffer false b).1 = false ∧
    (force_flush_buffer false b).2.size = b.size ∧
    (force_flush_buffer false b).2.data = b.data ∧
    (force_flush_buffer false b).2.stats.failed_flushes = b.stats.failed_flushes + 1 ∧
    (force_flush_buffer true b).1 = true ∧
    (force_flush_buffer true b).2.size = 0 := by
  have hvalid : validate_buffer_state b = (true, b) := by
    simp [validate_buffer_state, hinit, halloc]
  refine ⟨?_, ?_, ?_, ?_, ?_, ?_⟩ <;>
    simp [force_flush_buffer, hvalid, Nat.pos_iff_ne_zero.mp hsz]

def sample_buffer : Buffer :=
  { data_allocated := true
    data := fun i => if i < 3500 then 65 else 0
    size := 3500
    capacity := 4096
    initialized := true
    last_error := 0
    stats := { total_flushes := 0, failed_flushes := 0, total_writes := 7, failed_writes := 0 } }

theorem force_flush_buffer_spec_witness :
    sample_buffer.initialized = true ∧ sample_buffer.data_allocated = true ∧
    0 < sample_buffer.size ∧
    (force_flush_buffer false sample_buffer).1 = false ∧
    (force_flush_buffer false sample_buffer).2.size = sample_buffer.size ∧
    (force_flush_buffer false sample_buffer).2.stats.failed_flushes =
      sample_buffer.stats.failed_flushes + 1 ∧
    (force_flush_buffer true sample_buffer).1 = true ∧
    (force_flush_buffer true sample_buffer).2.size = 0 := by
  have h := force_flush_buffer_spec sample_buffer rfl rfl (by decide)
  exact ⟨rfl, rfl, by decide, h.1, h.2.1, h.2.2.2.1, h.2.2.2.2.1, h.2.2.2.2.2⟩

/-! ## Claim C7: append parameter checks and flush-then-retry -/

/-- C7: `add_to_buffer` rejects a null pointer, a zero length and a
length above the fixed 1024-byte per-event ceiling, setting
`BUFFER_ERROR_INVALID` and leaving everything else untouched regardless
of remaining capacity; and when an otherwise-valid append does not fit
(`size + len > capacity`), a flush is attempted first: if the flush's
write fails the append fails with the failed-write counter bumped, and
if it succeeds the append is retried against the emptied buffer and
succeeds. -/
theorem add_to_buffer_spec (w : Bool) (b : Buffer) (event_data : Option (Nat → Nat))
    (data_size : Nat) :
    (event_data = none ∨ data_size = 0 ∨ data_size > BUFFER_MAX_EVENT_SIZE →
      add_to_buffer w b event_data data_size =
        (false, { b with last_error := BUFFER_ERROR_INVALID })) ∧
    (∀ ed, event_data = some ed → 0 < data_size → data_size ≤ BUFFER_MAX_EVENT_SIZE →
      b.initialized = true → b.data_allocated = true →
      b.capacity = BUFFER_SIZE → b.size ≤ b.capacity →
      b.size + data_size > b.capacity →
      (add_to_buffer false b event_data data_size).1 = false ∧
      (add_to_buffer false b event_data data_size).2.stats.failed_writes =
        b.stats.failed_writes + 1 ∧
      (add_to_buffer false b event_data data_size).2.stats.total_flushes =
        b.stats.total_flushes + 1 ∧
      (add_to_buffer true b event_data data_size).1 = true ∧
      (add_to_buffer true b event_data data_size).2.size = data_size) := by
  constructor
  · rintro (hnone | hzero | hbig)
    · subst hnone; rfl
    · cases event_data with
      | none => rfl
      | some ed => simp [add_to_buffer, hzero]
    · cases event_data with
      | none => rfl
      | some ed => simp [add_to_buffer, hbig]
  · rintro ed rfl hpos hle hinit halloc hcap hszcap hover
    have hnz : ¬(data_size = 0 ∨ data_size > BUFFER_MAX_EVENT_SIZE) := by omega
    have hnov : ¬data_size > SIZE_MAX - b.size := by
      simp only [SIZE_MAX, BUFFER_SIZE, BUFFER_MAX_EVENT_SIZE] at *
      omega
    have hvalid : validate_buffer_state b = (true, b) := by
      simp [validate_buffer_state, hinit, halloc]
    have hbpos : b.size ≠ 0 := by
      simp only [BUFFER_MAX_EVENT_SIZE, BUFFER_SIZE] at *
      omega
    have hfit : data_size ≤ b.capacity := by
      simp only [BUFFER_MAX_EVENT_SIZE, BUFFER_SIZE] at *
      omega
    have hflushF : force_flush_buffer false b =
        (false,
          { b with
            last_error := BUFFER_ERROR_FLUSH,
            stats :=
              { b.stats with
                total_flushes := b.stats.total_flushes + 1,
                failed_flushes := b.stats.failed_flushes + 1 } }) := by
      simp [force_flush_buffer, hvalid, hbpos]
    have hflushT : force_flush_buffer true b =
        (true,
          { b with
            size := 0, data := fun _ => 0,
            stats := { b.stats with total_flushes := b.stats.total_flushes + 1 } }) := by
      simp [force_flush_buffer, hvalid, hbpos]
    refine ⟨?_, ?_, ?_, ?_, ?_⟩ <;>
      simp [add_to_buffer, hnz, hnov, hvalid, hover, hflushF, hflushT,
        add_to_buffer_tail, hfit, Nat.not_le.mpr hover]

def sample_event_bytes : Nat → Nat := fun _ => 65

theorem add_to_buffer_spec_witness :
    (some sample_event_bytes = none ∨ (1200 : Nat) = 0 ∨ (1200 : Nat) > BUFFER_MAX_EVENT_SIZE) ∧
    add_to_buffer true sample_buffer (some sample_event_bytes) 1200 =
      (false, { sample_buffer with last_error := BUFFER_ERROR_INVALID }) ∧
    (0 : Nat) < 1000 ∧ (1000 : Nat) ≤ BUFFER_MAX_EVENT_SIZE ∧
    sample_buffer.size + 1000 > sample_buffer.capacity ∧
    (add_to_buffer false sample_buffer (some sample_event_bytes) 1000).1 = false ∧
    (add_to_buffer false sample_buffer (some sample_event_bytes) 1000).2.stats.failed_writes =
      sample_buffer.stats.failed_writes + 1 ∧
    (add_to_buffer true sample_buffer (some sample_event_bytes) 1000).1 = true ∧
    (add_to_buffer true sample_buffer (some sample_event_bytes) 1000).2.size = 1000 := by
  have hrej := (add_to_buffer_spec true sample_buffer (some sample_event_bytes) 1200).1
    (by right; right; decide)
  have hbig := (add_to_buffer_spec true sample_buffer (some sample_event_bytes) 1000).2
    sample_event_bytes rfl (by decide) (by decide) rfl rfl rfl (by decide) (by decide)
  have hbigF := (add_to_buffer_spec false sample_buffer (some sample_event_bytes) 1000).2
    sample_event_bytes rfl (by decide) (by decide) rfl rfl rfl (by decide) (by decide)
  exact ⟨by right; right; decide, hrej, by decide, by decide, by decide,
    hbigF.1, hbigF.2.1, hbig.2.2.2.1, hbig.2.2.2.2⟩

/-! ## Log writer (logger.c)

External effects are abstracted as oracles: `io k` is the success of
the `k`-th `WriteFile` syscall issued by this logical write (a
successful `WriteFile` is taken to write its whole chunk, which is what
logger.c assumes when it adds `written` to its totals), `tsOk` is the
success of `format_timestamp` and `ts` the timestamp bytes it produced
(assumed free of NUL bytes so that `strlen` is its length).  Every
result also carries the trace of chunks passed to `WriteFile`, so that
"no file I/O was performed" is expressible as an empty trace. -/

structure LoggerStats where
  total_writes : Nat
  failed_writes : Nat
  bytes_written : Nat
  retry_count : Nat
deriving DecidableEq, Inhabited, Repr

/-- The global `Logger` of logger.c.  `file_valid` models
`file_handle != INVALID_HANDLE_VALUE`. -/
structure Logger where
  file_valid : Bool
  filepath : String
  initialized : Bool
  last_error : Nat
  current_file_size : Nat
  stats : LoggerStats
deriving DecidableEq, Repr

/-- Result of `write_with_retry`: success flag, the index of the next
unconsumed `WriteFile` outcome, the number of failed attempts (each of
which bumped `retry_count`), and the trace of issued syscalls. -/
structure RetryResult where
  ok : Bool
  next_index : Nat
  retries : Nat
  calls : List (List Nat)
deriving DecidableEq, Repr

/-- The retry loop body of `write_with_retry` (logger.c): up to `fuel`
`WriteFile` attempts on `chunk`, stopping at the first success. -/
def write_attempts (io : Nat → Bool) (chunk : List Nat) : Nat → Nat → RetryResult
  | idx, 0 => ⟨false, idx, 0, []⟩
  | idx, fuel + 1 =>
    if io idx then ⟨true, idx + 1, 0, [chunk]⟩
    else
      let r := write_attempts io chunk (idx + 1) fuel
      ⟨r.ok, r.next_index, r.retries + 1, chunk :: r.calls⟩

/-- `write_with_retry` from logger.c: `LOG_MAX_WRITE_RETRIES` attempts. -/
def write_with_retry (io : Nat → Bool) (idx : Nat) (chunk : List Nat) : RetryResult :=
  write_attempts io chunk idx LOG_MAX_WRITE_RETRIES

/-- `validate_logger_state` from logger.c. -/
def validate_logger_state (lg : Logger) : Bool × Logger :=
  if lg.initialized && lg.file_valid then (true, lg)
  else (false, { lg with last_error := LOG_ERROR_INIT })

/-- `check_file_size` from logger.c: reject when the tracked size plus
the additional bytes would pass `LOG_MAX_FILE_SIZE`. -/
def check_file_size (lg : Logger) (additional_bytes : Nat) : Bool × Logger :=
  if lg.current_file_size + additional_bytes > LOG_MAX_FILE_SIZE then
    (false, { lg with last_error := LOG_ERROR_SIZE })
  else (true, lg)

/-- `write_with_timestamp` from logger.c: timestamp, payload, and (when
the payload does not end in a newline) a newline byte are written in
sequence, each through `write_with_retry`; the first failure aborts the
logical write with `failed_writes` bumped, and only full success
updates `total_writes`, `bytes_written` and `current_file_size`. -/
def write_with_timestamp (io : Nat → Bool) (tsOk : Bool) (ts : List Nat) (lg : Logger)
    (payload : List Nat) : Bool × Logger × List (List Nat) :=
  if tsOk = false then (false, { lg with last_error := LOG_ERROR_WRITE }, [])
  else
    let r1 := write_with_retry io 0 ts
    let lg1 :=
      { lg with stats := { lg.stats with retry_count := lg.stats.retry_count + r1.retries } }
    if r1.ok = false then
      (false,
        { lg1 with
          last_error := LOG_ERROR_WRITE,
          stats := { lg1.stats with failed_writes := lg1.stats.failed_writes + 1 } },
        r1.calls)
    else
      let r2 := write_with_retry io r1.next_index payload
      let lg2 :=
        { lg1 with stats := { lg1.stats with retry_count := lg1.stats.retry_count + r2.retries } }
      if r2.ok = false then
        (false,
          { lg2 with
            last_error := LOG_ERROR_WRITE,
            stats := { lg2.stats with failed_writes := lg2.stats.failed_writes + 1 } },
          r1.calls ++ r2.calls)
      else
        if payload.getLast? ≠ some 10 then
          let r3 := write_with_retry io r2.next_index [10]
          let lg3 :=
            { lg2 with
              stats := { lg2.stats with retry_count := lg2.stats.retry_count + r3.retries } }
          if r3.ok = false then
            (false,
              { lg3 with
                last_error := LOG_ERROR_WRITE,
                stats := { lg3.stats with failed_writes := lg3.stats.failed_writes + 1 } },
              r1.calls ++ r2.calls ++ r3.calls)
          else
            let total := ts.length + payload.length + 1
            (true,
              { lg3 with
                current_file_size := lg3.current_file_size + total,
                stats :=
                  { lg3.stats with
                    total_writes := lg3.stats.total_writes + 1,
                    bytes_written := lg3.stats.bytes_written + total } },
              r1.calls ++ r2.calls ++ r3.calls)
        else
          let total := ts.length + payload.length
          (true,
            { lg2 with
              current_file_size := lg2.current_file_size + total,
              stats :=
                { lg2.stats with
                  total_writes := lg2.stats.total_writes + 1,
                  bytes_written := lg2.stats.bytes_written + total } },
            r1.calls ++ r2.calls)

/-- `write_to_log` from logger.c: a null pointer, a zero size or a size
above `LOG_BUFFER_SIZE` is rejected with `LOG_ERROR_INVALID` before
anything else; then the state is validated; then `check_file_size` is
consulted with `size + LOG_TIMESTAMP_SIZE + 1` additional bytes; only
then is any I/O issued. -/
def write_to_log (io : Nat → Bool) (tsOk : Bool) (ts : List Nat) (lg : Logger)
    (data : Option (Nat → Nat)) (size : Nat) : Bool × Logger × List (List Nat) :=
  match data with
  | none => (false, { lg with last_error := LOG_ERROR_INVALID }, [])
  | some d =>
    if size = 0 ∨ size > LOG_BUFFER_SIZE then
      (false, { lg with last_error := LOG_ERROR_INVALID }, [])
    else
      let v := validate_logger_state lg
      if v.1 = false then (false, v.2, [])
      else
        let c := check_file_size v.2 (size + LOG_TIMESTAMP_SIZE + 1)
        if c.1 = false then (false, c.2, [])
        else write_with_timestamp io tsOk ts c.2 ((List.range size).map d)

/-! ## Claim C5: the size cap rejects before any I/O -/

/-- C5: a write whose payload would push the tracked cumulative size
past the cap (`current_file_size + size > LOG_MAX_FILE_SIZE`) on an
initialized writer returns `false` with an empty syscall trace (no file
I/O), and leaves the tracked size, `bytes_written` and `total_writes`
unchanged.  (The code in fact rejects slightly earlier, at
`current_file_size + size + LOG_TIMESTAMP_SIZE + 1 > cap`, a superset
of the claimed condition.) -/
theorem write_to_log_cap_reject (io : Nat → Bool) (tsOk : Bool) (ts : List Nat)
    (lg : Logger) (data : Option (Nat → Nat)) (size : Nat)
    (hcap : lg.current_file_size + size > LOG_MAX_FILE_SIZE) :
    (write_to_log io tsOk ts lg data size).1 = false ∧
    (write_to_log io tsOk ts lg data size).2.2 = [] ∧
    (write_to_log io tsOk ts lg data size).2.1.current_file_size = lg.current_file_size ∧
    (write_to_log io tsOk ts lg data size).2.1.stats.bytes_written = lg.stats.bytes_written ∧
    (write_to_log io tsOk ts lg data size).2.1.stats.total_writes = lg.stats.total_writes := by
  cases data with
  | none => exact ⟨rfl, rfl, rfl, rfl, rfl⟩
  | some d =>
    by_cases hsz : size = 0 ∨ size > LOG_BUFFER_SIZE
    · refine ⟨?_, ?_, ?_, ?_, ?_⟩ <;> simp [write_to_log, hsz]
    · by_cases hv : lg.initialized && lg.file_valid
      · have hvalid : validate_logger_state lg = (true, lg) := by
          simp [validate_logger_state, hv]
        have hgt : lg.current_file_size + (size + LOG_TIMESTAMP_SIZE + 1) >
            LOG_MAX_FILE_SIZE := by
          simp only [LOG_TIMESTAMP_SIZE, LOG_MAX_FILE_SIZE] at *
          omega
        have hchk : check_file_size lg (size + LOG_TIMESTAMP_SIZE + 1) =
            (false, { lg with last_error := LOG_ERROR_SIZE }) := by
          simp [check_file_size, hgt]
        refine ⟨?_, ?_, ?_, ?_, ?_⟩ <;> simp [write_to_log, hsz, hvalid, hchk]
      · have hvalid : validate_logger_state lg =
            (false, { lg with last_error := LOG_ERROR_INIT }) := by
          simp only [validate_logger_state, if_neg hv]
        refine ⟨?_, ?_, ?_, ?_, ?_⟩ <;> simp [write_to_log, hsz, hvalid]

def sample_logger : Logger :=
  { file_valid := true
    filepath := "logs/keylog.txt"
    initialized := true
    last_error := 0
    current_file_size := 104857000
    stats := { total_writes := 42, failed_writes := 1, bytes_written := 104856000, retry_count := 3 } }

theorem write_to_log_cap_reject_witness :
    sample_logger.current_file_size + 1000 > LOG_MAX_FILE_SIZE ∧
    (write_to_log (fun _ => true) true [91, 50, 48, 93, 32] sample_logger
      (some (fun _ => 65)) 1000).1 = false ∧
    (write_to_log (fun _ => true) true [91, 50, 48, 93, 32] sample_logger
      (some (fun _ => 65)) 1000).2.2 = [] ∧
    (write_to_log (fun _ => true) true [91, 50, 48, 93, 32] sample_logger
      (some (fun _ => 65)) 1000).2.1.current_file_size = sample_logger.current_file_size := by
  have h := write_to_log_cap_reject (fun _ => true) true [91, 50, 48, 93, 32] sample_logger
    (some (fun _ => 65)) 1000 (by decide)
  exact ⟨by decide, h.1, h.2.1, h.2.2.1⟩

/-! ## Claim C10: the per-call parameter ceiling of the log writer -/

/-- C10: a call to `write_to_log` with a null data pointer, a zero size
or a size above `LOG_BUFFER_SIZE = 4096` returns `false` with
`LOG_ERROR_INVALID` set, issues no file I/O, and leaves the tracked
file size and every counter unchanged — the full result is the input
state with only `last_error` replaced, for EVERY logger state,
including ones past the size cap (showing the rejection precedes the
cap check, which would have set `LOG_ERROR_SIZE` instead). -/
theorem write_to_log_invalid_reject (io : Nat → Bool) (tsOk : Bool) (ts : List Nat)
    (lg : Logger) (data : Option (Nat → Nat)) (size : Nat)
    (h : data = none ∨ size = 0 ∨ size > LOG_BUFFER_SIZE) :
    write_to_log io tsOk ts lg data size =
      (false, { lg with last_error := LOG_ERROR_INVALID }, []) := by
  rcases h with hnone | hsz
  · subst hnone; rfl
  · cases data with
    | none => rfl
    | some d => simp [write_to_log, hsz]

theorem write_to_log_invalid_reject_witness :
    ((some (fun _ => 65) : Option (Nat → Nat)) = none ∨ (5000 : Nat) = 0 ∨
      (5000 : Nat) > LOG_BUFFER_SIZE) ∧
    write_to_log (fun _ => true) true [91, 50, 48, 93, 32] sample_logger
      (some (fun _ => 65)) 5000 =
      (false, { sample_logger with last_error := LOG_ERROR_INVALID }, []) :=
  ⟨by right; right; decide,
    write_to_log_invalid_reject (fun _ => true) true [91, 50, 48, 93, 32] sample_logger
      (some (fun _ => 65)) 5000 (by right; right; decide)⟩

/-! ## Capture controller (capture.c) -/

inductive CaptureMode
  | normal
  | stealth
  | debug
deriving DecidableEq, Inhabited, Repr

structure CaptureConfig where
  log_path : String
  mode : CaptureMode
  flush_interval : Nat
  max_file_size : Nat
  rotate_logs : Bool
  encrypt_logs : Bool
  buffer_events : Bool
deriving DecidableEq, Inhabited, Repr

structure CaptureStats where
  events_captured : Nat
  bytes_written : Nat
  files_rotated : Nat
  write_errors : Nat
  events_buffered : Nat
  buffer_overflows : Nat
deriving DecidableEq, Inhabited, Repr

/-- The `CaptureSystem` global of capture.c.  `log_file` models
`log_file != NULL`, `buffer_present` models `buffer != NULL`, and
`callback_registered` records the hooks-side effect of
`register_hook_callback`/`unregister_hook_callback`. -/
structure CaptureSystem where
  config : CaptureConfig
  stats : CaptureStats
  log_file : Bool
  last_flush : Nat
  initialized : Bool
  active : Bool
  last_error : Nat
  buffer_present : Bool
  buffer : Nat → Nat
  buffer_size : Nat
  buffer_capacity : Nat
  callback_registered : Bool

/-- `flush_buffer_to_file` from capture.c.  `fwriteOk` is whether the
`fwrite` of the whole buffer returns the full count; `now` is
`GetTickCount()` at the flush. -/
def flush_buffer_to_file (fwriteOk : Bool) (now : Nat) (st : CaptureSystem) :
    Bool × CaptureSystem :=
  if st.buffer_present = false ∨ st.buffer_size = 0 then (true, st)
  else if st.log_file = false then (false, { st with last_error := CAPTURE_ERROR_FILE })
  else if fwriteOk then
    (true,
      { st with
        stats := { st.stats with bytes_written := st.stats.bytes_written + st.buffer_size },
        buffer_size := 0,
        last_flush := now })
  else
    (false,
      { st with
        last_error := CAPTURE_ERROR_FILE,
        stats := { st.stats with write_errors := st.stats.write_errors + 1 } })

/-- `stop_capture` from capture.c: early return when not active;
otherwise unregister the callback, flush a non-empty buffer, `fflush`
the file (no modelled state) and clear the active flag. -/
def stop_capture (fwriteOk : Bool) (now : Nat) (st : CaptureSystem) : CaptureSystem :=
  if st.active = false then st
  else
    let st1 := { st with callback_registered := false }
    let st2 := if st1.buffer_size > 0 then (flush_buffer_to_file fwriteOk now st1).2 else st1
    { st2 with active := false }

/-- `capture_event_callback` from capture.c, lines 49-52.  In the
source the guard reads

  if (!capture.active || !event)
  printf("[Capture] Callback received no event or capture is inactive.\n");
  return;

so the `if` governs only the `printf` and the `return` executes
unconditionally: the function returns without touching any state for
EVERY input, and the formatting/buffering/writing code below it
(lines 54-88) is unreachable.  The embedding is therefore the identity
on the capture state. -/
def capture_event_callback (st : CaptureSystem) (event : Option Event) : CaptureSystem :=
  st

/-! ## Claim C6: the per-event path of the capture callback -/

/-- C6 (refuted): even while capture is active, delivering an event to
`capture_event_callback` changes nothing — no formatting, no append, no
direct write, no counter update — because the callback's unconditional
early `return` makes the whole per-event path dead code. -/
theorem capture_event_callback_ignores_events (st : CaptureSystem) (e : Event)
    (hact : st.active = true) :
    capture_event_callback st (some e) = st ∧
    (capture_event_callback st (some e)).stats.events_buffered = st.stats.events_buffered ∧
    (capture_event_callback st (some e)).stats.events_captured = st.stats.events_captured ∧
    (capture_event_callback st (some e)).buffer_size = st.buffer_size :=
  ⟨rfl, rfl, rfl, rfl⟩

def sample_capture_state : CaptureSystem :=
  { config :=
      { log_path := "keylog.txt", mode := CaptureMode.debug, flush_interval := 1000
        max_file_size := 10485760, rotate_logs := true, encrypt_logs := false
        buffer_events := true }
    stats :=
      { events_captured := 0, bytes_written := 0, files_rotated := 0
        write_errors := 0, events_buffered := 0, buffer_overflows := 0 }
    log_file := true
    last_flush := 0
    initialized := true
    active := true
    last_error := 0
    buffer_present := true
    buffer := fun _ => 0
    buffer_size := 120
    buffer_capacity := 1048576
    callback_registered := true }

theorem capture_event_callback_ignores_events_witness :
    sample_capture_state.active = true ∧
    capture_event_callback sample_capture_state (some sample_key_event) =
      sample_capture_state ∧
    (capture_event_callback sample_capture_state (some sample_key_event)).stats.events_buffered =
      sample_capture_state.stats.events_buffered :=
  ⟨rfl,
    (capture_event_callback_ignores_events sample_capture_state sample_key_event rfl).1,
    (capture_event_callback_ignores_events sample_capture_state sample_key_event rfl).2.1⟩

/-! ## Claim C9: `stop_capture` is idempotent -/

theorem stop_capture_inactive_noop (fwriteOk : Bool) (now : Nat) (st : CaptureSystem)
    (h : st.active = false) : stop_capture fwriteOk now st = st := by
  unfold stop_capture
  rw [h]
  rfl

/-- C9: a first `stop_capture` on an active controller leaves the
controller inactive, and an immediately following second call returns
the state completely unchanged — no error is set, the active flag is
not touched again, and buffer, file and statistics are exactly as the
first call left them. -/
theorem stop_capture_idempotent (w1 w2 : Bool) (n1 n2 : Nat) (st : CaptureSystem)
    (hact : st.active = true) :
    (stop_capture w1 n1 st).active = false ∧
    stop_capture w2 n2 (stop_capture w1 n1 st) = stop_capture w1 n1 st := by
  have h1 : (stop_capture w1 n1 st).active = false := by
    unfold stop_capture
    rw [hact]
    rfl
  exact ⟨h1, stop_capture_inactive_noop w2 n2 _ h1⟩

theorem stop_capture_idempotent_witness :
    sample_capture_state.active = true ∧
    (stop_capture false 17 sample_capture_state).active = false ∧
    stop_capture true 99 (stop_capture false 17 sample_capture_state) =
      stop_capture false 17 sample_capture_state := by
  have h := stop_capture_idempotent false true 17 99 sample_capture_state rfl
  exact ⟨rfl, h.1, h.2⟩

/-! ## Event formatter (`format_event_entry`, capture.c)

The wall-clock timestamp string produced by `GetLocalTime` +
`snprintf("%04d-%02d-%02d %02d:%02d:%02d.%03hu")` is external input; it
is passed in as the parameter `ts`.  The `snprintf` output for each
event type is reproduced as string concatenation; all entries fit well
inside the 2048-byte entry buffer, so no truncation occurs. -/

/-- One uppercase hexadecimal digit, as produced by `%X`. -/
def hexDigit (n : Nat) : Char :=
  if n < 10 then Char.ofNat (48 + n) else Char.ofNat (55 + n)

/-- Hex digits of `n`, least significant first; `fuel` bounds the digit
count (16 covers every 64-bit value). -/
def hexDigitsRev (fuel n : Nat) : List Char :=
  match fuel with
  | 0 => []
  | f + 1 => if n = 0 then [] else hexDigit (n % 16) :: hexDigitsRev f (n / 16)

/-- The rendering of `%04lX`: uppercase hex, zero-padded to width 4. -/
def hex4 (n : Nat) : String :=
  let ds := (hexDigitsRev 16 n).reverse
  let ds := if ds.length = 0 then ['0'] else ds
  String.mk (List.replicate (4 - ds.length) '0' ++ ds)

/-- `format_event_entry` from capture.c (the `snprintf` format strings,
with `ts` standing for the already-formatted local-time string). -/
def format_event_entry (ts : String) (e : Event) : String :=
  match e.type with
  | EventType.keyPress | EventType.keyRelease =>
    "[" ++ ts ++ "] KEY " ++ (if e.type = EventType.keyPress then "DOWN" else "UP") ++
    " VK:0x" ++ hex4 e.keyboard.vkCode ++ " SC:0x" ++ hex4 e.keyboard.scanCode ++
    (if e.keyboard.alt then " ALT" else "") ++
    (if e.keyboard.control then " CTRL" else "") ++
    (if e.keyboard.shift then " SHIFT" else "") ++
    (if e.keyboard.win then " WIN" else "") ++ "\n"
  | EventType.mouseClick | EventType.mouseMove | EventType.mouseWheel =>
    "[" ++ ts ++ "] MOUSE " ++
    (if e.type = EventType.mouseClick then "CLICK"
      else if e.type = EventType.mouseMove then "MOVE" else "WHEEL") ++
    " X:" ++ toString e.mouse.posX ++ " Y:" ++ toString e.mouse.posY ++
    " BTN:" ++ (if e.mouse.leftButton then " LEFT" else "") ++
    (if e.mouse.rightButton then " RIGHT" else "") ++
    (if e.mouse.middleButton then " MIDDLE" else "") ++
    " WHL:" ++ toString e.mouse.wheelDelta ++ "\n"
  | EventType.windowChange =>
    "[" ++ ts ++ "] WINDOW TITLE:'" ++ e.window.title ++ "' PROCESS:'" ++
    e.window.process ++ "' PID:" ++ toString e.window.processId ++ "\n"
  | EventType.error => ""

/-! ## Claim C8: exact rendering of the reference key event -/

theorem string_data_append (a b : String) : (a ++ b).data = a.data ++ b.data :=
  rfl

theorem string_eq_of_data_eq (a b : String) (h : a.data = b.data) : a = b := by
  cases a
  cases b
  exact congrArg String.mk (by simpa using h)

/-- C8: for a KeyPress with vkCode 0x41, scanCode 0x1E, alt set and all
other modifiers clear, the formatter emits exactly the timestamp prefix
`[ts] ` followed by the line body `KEY DOWN VK:0x0041 SC:0x001E ALT`
and the terminating newline, for every timestamp string. -/
theorem format_key_event_exact (ts : String) :
    format_event_entry ts sample_key_event =
      ("[" ++ ts ++ "] ") ++ "KEY DOWN VK:0x0041 SC:0x001E ALT" ++ "\n" := by
  apply string_eq_of_data_eq
  simp only [format_event_entry, sample_key_event]
  simp only [string_data_append, List.append_assoc]
  norm_num
  decide

end I2c
